import Mathlib

/-!
# Verification of the eeglib reader and signal utilities

Shallow embedding of `eeglib/data.py` and `eeglib/signal.py`.

Modelling conventions:
* A pandas `DataFrame` is an association list of named columns of rationals
  (column order is significant, as it is in pandas).
* Numeric values are rationals; the Python code only moves values around and
  forms `i / 1000`-style quotients, so `ℚ` is exact for everything at stake.
* Python exceptions become an explicit error type `PyErr`; fallible code runs
  in `Except PyErr`.
* The filesystem and the `h5py`/`scipy` library calls are abstracted into
  explicit parameters (`FileSystem`, `FilterDesign`): the code under
  verification is the glue in this repository, not the numerical libraries.
-/

set_option autoImplicit false

namespace Eeglib

/-- Python exceptions that the embedded code can raise. -/
inductive PyErr where
  /-- `NotImplementedError` -/
  | notImplementedError
  /-- `eeglib.exc.InvalidPathError`, carrying the message string. -/
  | invalidPathError (msg : String)
  /-- `TypeError` raised by the call mechanics (e.g. unexpected keyword). -/
  | typeError (msg : String)
  /-- pandas `KeyError` for a missing column label. -/
  | keyError (key : String)
  /-- `OSError` from `h5py.File` when the file cannot be opened. -/
  | osError (filename : String)
  /-- numpy `IndexError` for an out-of-bounds fancy index. -/
  | indexError
  deriving DecidableEq, Repr

/-- A pandas data frame: ordered named columns of equal length. -/
abbrev DataFrame := List (String × List ℚ)

/-- The column labels of a data frame, in order (`df.columns`). -/
def dfColumns (df : DataFrame) : List String := df.map Prod.fst

/-- The mutable attributes of a `DataReader` instance
(`timeseries`, `events`, `metadata`, `_time_column`). -/
structure ReaderState where
  timeseries : DataFrame
  events : List (String × String)
  metadata : List (String × String)
  timeColumnLabel : String
  deriving DecidableEq, Repr

/-- The attribute values installed at the top of `DataReader.__init__`:
empty frame, empty dicts, time column label `"time"`. -/
def initState : ReaderState :=
  { timeseries := [], events := [], metadata := [], timeColumnLabel := "time" }

/-- The `time_column` property getter: returns `self._time_column`. -/
def time_column (s : ReaderState) : String := s.timeColumnLabel

/-- The `time_column` property setter: assigns `self._time_column`
and touches nothing else. -/
def set_time_column (s : ReaderState) (new_label : String) : ReaderState :=
  { s with timeColumnLabel := new_label }

/-- Content of a Ramulator `eeg_timeseries.h5` file: a 1-D `ports` array and a
2-D `timeseries` array. `tsCols` is `timeseries.shape[1]` (number of samples
per channel), which row selection preserves; well-formed data has every row of
`tsRows` of length `tsCols`. -/
structure H5Data where
  ports : List Int
  tsRows : List (List ℚ)
  tsCols : Nat

/-- The ambient filesystem and the `h5py` view of it, abstracted.
`fileExists` records which plain files are present in the directory; the
embedded constructor never consults it (faithful to the source, which checks
only `osp.isdir`). `h5files` is `h5py`'s view: the parsed content of each
openable HDF5 file. -/
structure FileSystem where
  expanduser : String → String
  isDir : String → Bool
  fileExists : String → Bool
  h5files : String → Option H5Data

/-- `os.path.join(path, filename)` for a relative `filename`. -/
def ospJoin (path filename : String) : String := path ++ "/" ++ filename

/-- numpy fancy indexing `arr[idxs]` on the first axis: the rows at exactly
the given indices, in the given order; out of range raises `IndexError`. -/
def fancyIndex {α : Type} (xs : List α) : List Nat → Except PyErr (List α)
  | [] => Except.ok []
  | i :: is =>
    if h : i < xs.length then
      match fancyIndex xs is with
      | Except.ok rest => Except.ok (xs.get ⟨i, h⟩ :: rest)
      | Except.error e => Except.error e
    else Except.error PyErr.indexError

/-- `np.linspace(start, stop, num)` with the default inclusive endpoint:
`num` evenly spaced samples from `start` to `stop`, both included. -/
def linspace (start stop : ℚ) (num : Nat) : List ℚ :=
  if num = 0 then []
  else if num = 1 then [start]
  else (List.range num).map (fun i => start + (stop - start) * i / (num - 1))

/-- pandas column selection `df[labels]`: the named columns in the given
order; a label absent from the frame raises `KeyError`. -/
def selectCols (df : DataFrame) : List String → Except PyErr DataFrame
  | [] => Except.ok []
  | l :: ls =>
    match df.lookup l with
    | some v =>
      match selectCols df ls with
      | Except.ok rest => Except.ok ((l, v) :: rest)
      | Except.error e => Except.error e
    | none => Except.error (PyErr.keyError l)

/-- pandas boolean-mask row filtering applied to one column: keep the entries
whose mask position is `true`. -/
def maskFilter (mask : List Bool) (xs : List ℚ) : List ℚ :=
  ((xs.zip mask).filter (fun p => p.2)).map (fun p => p.1)

/-- pandas boolean-mask row filtering `df[mask]`: every column is filtered by
the same row mask. -/
def rowFilter (df : DataFrame) (mask : List Bool) : DataFrame :=
  df.map (fun c => (c.1, maskFilter mask c.2))

/-- The row predicate of `get_time_range`: `time >= tmin` and, when `tspan`
is given, also `time <= tmin + tspan`. -/
def inRangeB (tmin : ℚ) (tspan : Option ℚ) (t : ℚ) : Bool :=
  match tspan with
  | none => decide (tmin ≤ t)
  | some sp => decide (tmin ≤ t) && decide (t ≤ tmin + sp)

/-- `DataReader.get_time_range(channels, tmin, tspan)`: narrow to
`[self.time_column] + channels` when `channels` is given, then keep the rows
whose time-column value satisfies the bound. The source has two filtering
branches on `tspan is None`; they are merged here into the mask `inRangeB`,
which matches each branch on the corresponding `tspan`. -/
def get_time_range (s : ReaderState) (channels : Option (List String))
    (tmin : ℚ) (tspan : Option ℚ) : Except PyErr DataFrame :=
  match (match channels with
         | some chs => selectCols s.timeseries (s.timeColumnLabel :: chs)
         | none => Except.ok s.timeseries) with
  | Except.error e => Except.error e
  | Except.ok df =>
    match df.lookup s.timeColumnLabel with
    | none => Except.error (PyErr.keyError s.timeColumnLabel)
    | some tvals => Except.ok (rowFilter df (tvals.map (inRangeB tmin tspan)))

/-- The method call `self.get_time_range(...)` with the instance state
threaded through explicitly: the body reads `self.timeseries` and
`self.time_column` and assigns no attribute, so the state it returns is the
state each step was given. -/
def get_time_range_method (s : ReaderState) (channels : Option (List String))
    (tmin : ℚ) (tspan : Option ℚ) : Except PyErr (DataFrame × ReaderState) :=
  match (match channels with
         | some chs => selectCols s.timeseries (s.timeColumnLabel :: chs)
         | none => Except.ok s.timeseries) with
  | Except.error e => Except.error e
  | Except.ok df =>
    match df.lookup s.timeColumnLabel with
    | none => Except.error (PyErr.keyError s.timeColumnLabel)
    | some tvals => Except.ok (rowFilter df (tvals.map (inRangeB tmin tspan)), s)

/-- The data selection performed by `DataReader.plot_timeseries`: it calls
`get_time_range` with the same arguments and renders the result against the
column labelled `self.time_column` as the x-axis. Rendering itself (the
matplotlib axes object) is presentation glue and is not modelled; what is
modelled is which table is plotted and which column is used as time. -/
def plot_timeseries_selection (s : ReaderState)
    (channels : Option (List String)) (tmin : ℚ) (tspan : Option ℚ) :
    Except PyErr (String × DataFrame) :=
  match get_time_range s channels tmin tspan with
  | Except.error e => Except.error e
  | Except.ok df => Except.ok (s.timeColumnLabel, df)

/-- An implementation of `read_timeseries` (the dynamically dispatched
method): given the filesystem, the instance state, the path and the optional
channel-index list, it returns the data frame and the updated state. -/
def ReadImpl : Type :=
  FileSystem → ReaderState → String → Option (List Nat) →
    Except PyErr (DataFrame × ReaderState)

/-- `DataReader.read_timeseries`: the base class raises
`NotImplementedError`. -/
def dataReader_read_timeseries : ReadImpl :=
  fun _ _ _ _ => Except.error PyErr.notImplementedError

/-- `DataReader.__init__(path, channels, noread)`: install the initial
attributes; when `path` is not `None`, expand it and require it to be a
directory (`InvalidPathError("path must be a directory")` otherwise); run the
no-op `initialize`; then, unless `noread` or `path is None`, call the
(dispatched) `read_timeseries` on the expanded path. -/
def dataReaderInit (readTs : ReadImpl) (fs : FileSystem) (path : Option String)
    (channels : Option (List Nat)) (noread : Bool) : Except PyErr ReaderState :=
  match path with
  | none => Except.ok initState
  | some p =>
    let p := fs.expanduser p
    if fs.isDir p then
      if noread then Except.ok initState
      else match readTs fs initState p channels with
        | Except.error e => Except.error e
        | Except.ok r => Except.ok r.2
    else Except.error (PyErr.invalidPathError "path must be a directory")

/-- `DataReader.from_data(times, data)`: build the frame
`from_items([("time", times)] + items(data))` on a plainly constructed
instance (`cls()` with `path=None`) and store it as `timeseries`. -/
def from_data (times : List ℚ) (data : List (String × List ℚ)) : ReaderState :=
  { initState with timeseries := ("time", times) :: data }

/-- The fixed sample interval of `RamulatorReader.read_timeseries`:
`dt = 1 / 1000.` (the source comments it as the 1000 Hz sampling rate). -/
def ramulatorDt : ℚ := 1 / 1000

/-- The time axis built by `RamulatorReader.read_timeseries`:
`np.linspace(0, dt * ts.shape[1], ts.shape[1])`. -/
def ramulatorTimes (numSamples : Nat) : List ℚ :=
  linspace 0 (ramulatorDt * numSamples) numSamples

/-- The channel columns built by `RamulatorReader.read_timeseries`:
`[("port%d" % port, ts[n]) for n, port in enumerate(ports)]`. The two arrays
are parallel (`zip`); well-formed files have them of equal length. -/
def portColumns (ports : List Int) (tsRows : List (List ℚ)) :
    List (String × List ℚ) :=
  (ports.zip tsRows).map (fun pr => ("port" ++ toString pr.1, pr.2))

/-- The filename of the Ramulator timeseries data file
(`RamulatorReader._timeseries_file`). -/
def timeseriesFile : String := "eeg_timeseries.h5"

/-- The filename of the Ramulator event-log file
(`RamulatorReader._event_log_file`). -/
def eventLogFile : String := "event_log.json"

/-- The filename of the Ramulator plain-text log file
(`RamulatorReader._log_file`). -/
def logFile : String := "output.log"

/-- `RamulatorReader.read_timeseries(path, channels)`: open
`path/eeg_timeseries.h5` (an unopenable file is an `OSError` from `h5py`),
take the `ports` and `timeseries` arrays — restricted by fancy indexing to
`channels` when given — derive the time axis with `linspace`, assemble the
frame `[("time", times)] + port columns`, store it and return it. -/
def ramulator_read_timeseries : ReadImpl := fun fs s path channels =>
  match fs.h5files (ospJoin path timeseriesFile) with
  | none => Except.error (PyErr.osError (ospJoin path timeseriesFile))
  | some h5 =>
    match (match channels with
           | some chs =>
             match fancyIndex h5.ports chs, fancyIndex h5.tsRows chs with
             | Except.ok ps, Except.ok ts => Except.ok (ps, ts)
             | Except.error e, _ => Except.error e
             | _, Except.error e => Except.error e
           | none => Except.ok (h5.ports, h5.tsRows)) with
    | Except.error e => Except.error e
    | Except.ok (ports, ts) =>
      let times := ramulatorTimes h5.tsCols
      let df : DataFrame := ("time", times) :: portColumns ports ts
      Except.ok (df, { s with timeseries := df })

/-- The Python-level call
`reader.read_timeseries(path, channels, indexingMode=...)`; the method
signature `def read_timeseries(self, path, channels=None)` has no
`indexingMode` parameter and no `**kwargs`, so supplying the keyword raises
`TypeError` from the call mechanics, before the body runs. -/
def ramulator_read_timeseries_kwcall (fs : FileSystem) (s : ReaderState)
    (path : String) (channels : Option (List Nat)) (indexingMode : Option String) :
    Except PyErr (DataFrame × ReaderState) :=
  match indexingMode with
  | some _ => Except.error
      (PyErr.typeError "unexpected keyword argument indexingMode")
  | none => ramulator_read_timeseries fs s path channels

/-- `RamulatorReader(path, channels, noread)`: `RamulatorReader` defines no
`__init__` of its own, so construction is `DataReader.__init__` with the
dispatch of `read_timeseries` resolved to `RamulatorReader`'s. -/
def ramulatorInit (fs : FileSystem) (path : Option String)
    (channels : Option (List Nat)) (noread : Bool) : Except PyErr ReaderState :=
  dataReaderInit ramulator_read_timeseries fs path channels noread

/-- The scipy primitives used by `eeglib/signal.py`, abstracted: `butter`
takes the order, the pair of normalized corner frequencies and the `btype`
string and returns the coefficient arrays `(b, a)`; `lfilter b a data`
applies the filter. -/
structure FilterDesign where
  butter : Nat → ℚ × ℚ → String → List ℚ × List ℚ
  lfilter : List ℚ → List ℚ → List ℚ → List ℚ

/-- `bandstop_filter(data, sample_rate, freq, width, order)`: normalize the
corner frequencies `freq - width` and `freq + width` by the Nyquist frequency
`0.5 * sample_rate`, design a Butterworth bandstop filter of the given order,
and apply it. -/
def bandstop_filter (fd : FilterDesign) (data : List ℚ) (sample_rate freq : ℚ)
    (width : ℚ) (order : Nat) : List ℚ :=
  let nyq := (0.5 : ℚ) * sample_rate
  let low := (freq - width) / nyq
  let high := (freq + width) / nyq
  let ba := fd.butter order (low, high) "bandstop"
  fd.lfilter ba.1 ba.2 data

/-- `line_filter(data, sample_rate, order, line_freq, width)`: exactly
`bandstop_filter(data, sample_rate, line_freq, width, order)`. -/
def line_filter (fd : FilterDesign) (data : List ℚ) (sample_rate : ℚ)
    (order : Nat) (line_freq width : ℚ) : List ℚ :=
  bandstop_filter fd data sample_rate line_freq width order

/-- A call `line_filter(data, sample_rate)` with every optional parameter
left at its default: `order=4`, `line_freq=60.0`, `width=2.0`. -/
def line_filter_default_call (fd : FilterDesign) (data : List ℚ)
    (sample_rate : ℚ) : List ℚ :=
  line_filter fd data sample_rate 4 60 2

/-! ## Concrete fixtures

Small concrete inputs used to witness the theorems and to exhibit
counterexamples. `sampleH5` is a two-channel, two-sample recording whose
hardware ports (3 and 7) deliberately differ from the row indices (0 and 1).
-/

/-- A concrete HDF5 content: ports `[3, 7]`, two samples per channel. -/
def sampleH5 : H5Data :=
  { ports := [3, 7], tsRows := [[10, 11], [20, 21]], tsCols := 2 }

/-- A filesystem with a single directory `d` holding only the timeseries
file `d/eeg_timeseries.h5` (no event log, no plain-text log). -/
def sampleFs : FileSystem :=
  { expanduser := fun p => p
    isDir := fun p => p == "d"
    fileExists := fun _ => false
    h5files := fun f => if f == "d/eeg_timeseries.h5" then some sampleH5 else none }

/-- A filesystem with a single directory `d` that holds no files at all. -/
def sampleFsNoH5 : FileSystem :=
  { expanduser := fun p => p
    isDir := fun p => p == "d"
    fileExists := fun _ => false
    h5files := fun _ => none }

/-- A concrete already-read reader state: time column `[0, 1, 2, 3]` and two
channels `a` and `b`. -/
def sampleState : ReaderState :=
  { initState with
      timeseries :=
        [("time", [0, 1, 2, 3]), ("a", [10, 11, 12, 13]), ("b", [20, 21, 22, 23])] }

/-- The data frame produced by reading `sampleH5`: the faulty `linspace` time
axis `[0, 1/500]` and the two port columns. -/
def sampleDf : DataFrame :=
  [("time", [0, 1/500]), ("port3", [10, 11]), ("port7", [20, 21])]

/-! ## Supporting lemmas -/

theorem maskFilter_map_zip (p : ℚ → Bool) (tvals xs : List ℚ) :
    maskFilter (tvals.map p) xs =
      ((xs.zip tvals).filter (fun q => p q.2)).map Prod.fst := by
  induction xs generalizing tvals with
  | nil => simp [maskFilter]
  | cons x xs ih =>
    cases tvals with
    | nil => simp [maskFilter]
    | cons t ts =>
      by_cases hp : p t <;>
        simp [maskFilter, List.filter_cons, hp, ← ih ts]

theorem maskFilter_self (p : ℚ → Bool) (xs : List ℚ) :
    maskFilter (xs.map p) xs = xs.filter p := by
  induction xs with
  | nil => rfl
  | cons x xs ih =>
    by_cases hp : p x <;>
      simp [maskFilter, List.filter_cons, hp, ← ih]

theorem maskFilter_of_all_false (p : ℚ → Bool) (tvals xs : List ℚ)
    (h : ∀ t ∈ tvals, p t = false) :
    maskFilter (tvals.map p) xs = [] := by
  induction xs generalizing tvals with
  | nil => simp [maskFilter]
  | cons x xs ih =>
    cases tvals with
    | nil => simp [maskFilter]
    | cons t ts =>
      have ht : p t = false := h t (by simp)
      have hts : ∀ u ∈ ts, p u = false := fun u hu => h u (by simp [hu])
      simp [maskFilter, List.filter_cons, ht, ← ih ts hts]

theorem lookup_rowFilter (df : DataFrame) (mask : List Bool) (k : String) :
    (rowFilter df mask).lookup k = (df.lookup k).map (maskFilter mask) := by
  induction df with
  | nil => rfl
  | cons c rest ih =>
    simp only [rowFilter] at ih ⊢
    by_cases hk : k == c.1 <;> simp [List.lookup, hk, ih]

theorem dfColumns_rowFilter (df : DataFrame) (mask : List Bool) :
    dfColumns (rowFilter df mask) = dfColumns df := by
  induction df with
  | nil => rfl
  | cons c rest ih => simp only [rowFilter] at ih ⊢; simp [dfColumns, ih]

theorem rowFilter_forall₂ (df : DataFrame) (mask : List Bool) :
    List.Forall₂ (fun c c' => c'.1 = c.1 ∧ c'.2 = maskFilter mask c.2)
      df (rowFilter df mask) := by
  induction df with
  | nil => exact List.Forall₂.nil
  | cons c rest ih => exact List.Forall₂.cons ⟨rfl, rfl⟩ ih

theorem selectCols_columns (df : DataFrame) (labels : List String)
    (out : DataFrame) (h : selectCols df labels = Except.ok out) :
    dfColumns out = labels := by
  induction labels generalizing out with
  | nil => simp [selectCols] at h; simp [← h, dfColumns]
  | cons l ls ih =>
    simp only [selectCols] at h
    cases hl : df.lookup l with
    | none => rw [hl] at h; exact absurd h (by simp)
    | some v =>
      rw [hl] at h
      cases hs : selectCols df ls with
      | error e => rw [hs] at h; exact absurd h (by simp)
      | ok rest =>
        rw [hs] at h
        cases h
        simpa [dfColumns] using ih rest hs

theorem fancyIndex_ok {α : Type} (xs : List α) (idxs : List Nat) (d : α)
    (h : ∀ i ∈ idxs, i < xs.length) :
    fancyIndex xs idxs = Except.ok (idxs.map (fun i => xs.getD i d)) := by
  induction idxs with
  | nil => rfl
  | cons i is ih =>
    have hi : i < xs.length := h i (by simp)
    have hrest := ih (fun j hj => h j (by simp [hj]))
    simp [fancyIndex, hi, hrest, List.getD_eq_getElem xs d hi]

theorem inRangeB_iff (tmin : ℚ) (tspan : Option ℚ) (t : ℚ) :
    inRangeB tmin tspan t = true ↔ (tmin ≤ t ∧ ∀ sp ∈ tspan, t ≤ tmin + sp) := by
  cases tspan <;> simp [inRangeB]

theorem portColumns_map (chs : List Nat) (f : Nat → Int) (g : Nat → List ℚ) :
    portColumns (chs.map f) (chs.map g) =
      chs.map (fun i => ("port" ++ toString (f i), g i)) := by
  induction chs with
  | nil => rfl
  | cons i is ih => simp only [List.map_cons, portColumns, List.zip_cons_cons] at ih ⊢; rw [ih]

/-! ## Claim theorems -/

/-- **C1.** For every held table whose time column (label `time_column`)
holds the values `tvals`, and every `tmin` and optional `tspan`,
`get_time_range` succeeds — never an error — and returns the boolean-mask
filtering of the held table by the bound `tmin ≤ t` (and `t ≤ tmin + tspan`
when `tspan` is given): column for column, the returned values are exactly
the entries at the positions whose time value meets the bound; the returned
time column is exactly the qualifying time values; and when no time value
meets the bound every returned column is empty (a zero-row table, not an
error). -/
theorem c1_get_time_range_filters_rows (s : ReaderState) (tmin : ℚ)
    (tspan : Option ℚ) (tvals : List ℚ)
    (ht : s.timeseries.lookup s.timeColumnLabel = some tvals) :
    get_time_range s none tmin tspan =
      Except.ok (rowFilter s.timeseries (tvals.map (inRangeB tmin tspan))) ∧
    (∀ t : ℚ, inRangeB tmin tspan t = true ↔
      (tmin ≤ t ∧ ∀ sp ∈ tspan, t ≤ tmin + sp)) ∧
    List.Forall₂ (fun c c' => c'.1 = c.1 ∧
        c'.2 = ((c.2.zip tvals).filter
          (fun q => inRangeB tmin tspan q.2)).map Prod.fst)
      s.timeseries
      (rowFilter s.timeseries (tvals.map (inRangeB tmin tspan))) ∧
    (rowFilter s.timeseries (tvals.map (inRangeB tmin tspan))).lookup
        s.timeColumnLabel = some (tvals.filter (inRangeB tmin tspan)) ∧
    ((∀ t ∈ tvals, inRangeB tmin tspan t = false) →
      ∀ c ∈ rowFilter s.timeseries (tvals.map (inRangeB tmin tspan)),
        c.2 = ([] : List ℚ)) := by
  refine ⟨?_, fun t => inRangeB_iff tmin tspan t, ?_, ?_, ?_⟩
  · simp [get_time_range, ht]
  · refine (rowFilter_forall₂ s.timeseries _).imp ?_
    intro c c' hc
    exact ⟨hc.1, by rw [hc.2, maskFilter_map_zip]⟩
  · rw [lookup_rowFilter, ht, Option.map_some', maskFilter_self]
  · intro hall c hc
    simp only [rowFilter, List.mem_map] at hc
    obtain ⟨a, _, rfl⟩ := hc
    exact maskFilter_of_all_false _ tvals a.2 hall

/-- Witness for C1: on the concrete `sampleState` with `tmin = 2`, the
hypothesis holds by evaluation and the filtering equation follows. -/
theorem c1_witness :
    sampleState.timeseries.lookup sampleState.timeColumnLabel =
        some [0, 1, 2, 3] ∧
    get_time_range sampleState none 2 none =
      Except.ok (rowFilter sampleState.timeseries
        ([0, 1, 2, 3].map (inRangeB 2 none))) :=
  ⟨rfl, (c1_get_time_range_filters_rows sampleState 2 none [0, 1, 2, 3] rfl).1⟩

/-- **C2 (code bug).** The time axis built by
`RamulatorReader.read_timeseries` does NOT satisfy `time[i] = i / 1000`:
`np.linspace(0, dt * numSamples, numSamples)` includes its endpoint, so for
`numSamples = 2` the axis is `[0, 2/1000]`, whereas a 1000 Hz sample rate
(the intent stated by the source's own comment and `dt = 1/1000`) requires
`[0, 1/1000]`. -/
theorem c2_times_not_millisecond_spaced :
    ramulatorDt = 1/1000 ∧
    ramulatorTimes 2 = [0, 2/1000] ∧
    (ramulatorTimes 2).getD 1 0 ≠ 1/1000 := by
  have h : ramulatorTimes 2 = [0, 2/1000] := by
    norm_num [ramulatorTimes, linspace, ramulatorDt, List.range_succ]
  refine ⟨rfl, h, ?_⟩
  rw [h]
  norm_num

/-- **C9.** `line_filter(data, sample_rate, order, line_freq, width)` is
exactly `bandstop_filter(data, sample_rate, line_freq, width, order)`; the
bandstop filter applies `butter` to the corner frequencies
`(freq - width)/nyquist` and `(freq + width)/nyquist` with
`nyquist = sample_rate/2`; and the call with all defaults uses `order=4`,
`line_freq=60`, `width=2`. -/
theorem c9_line_filter_is_bandstop (fd : FilterDesign) (data : List ℚ)
    (sample_rate : ℚ) (order : Nat) (line_freq width : ℚ) :
    line_filter fd data sample_rate order line_freq width =
      bandstop_filter fd data sample_rate line_freq width order ∧
    bandstop_filter fd data sample_rate line_freq width order =
      (fun ba => fd.lfilter ba.1 ba.2 data)
        (fd.butter order
          ((line_freq - width) / (sample_rate / 2),
           (line_freq + width) / (sample_rate / 2)) "bandstop") ∧
    line_filter_default_call fd data sample_rate =
      bandstop_filter fd data sample_rate 60 2 4 := by
  refine ⟨rfl, ?_, rfl⟩
  have hnyq : (0.5 : ℚ) * sample_rate = sample_rate / 2 := by
    rw [show (0.5 : ℚ) = 1/2 by norm_num]; ring
  simp only [bandstop_filter, hnyq]

/-- **C10.** Constructing a reader with a non-`None` path pointing at a
directory and `noread=False` performs the (dispatched) `read_timeseries`
inside the constructor — the state the constructor returns is the post-read
state; in particular the abstract `DataReader` constructed this way raises
`NotImplementedError`; and construction with `path=None` always succeeds with
the initial state, with no path validation and no read. -/
theorem c10_constructor_reads (readTs : ReadImpl) (fs : FileSystem)
    (p : String) (ch : Option (List Nat))
    (hdir : fs.isDir (fs.expanduser p) = true) :
    dataReaderInit readTs fs (some p) ch false =
      (readTs fs initState (fs.expanduser p) ch).map Prod.snd ∧
    dataReaderInit dataReader_read_timeseries fs (some p) ch false =
      Except.error PyErr.notImplementedError ∧
    (∀ (readTs' : ReadImpl) (ch' : Option (List Nat)) (nr : Bool),
      dataReaderInit readTs' fs none ch' nr = Except.ok initState) := by
  refine ⟨?_, ?_, fun _ _ _ => rfl⟩
  · simp only [dataReaderInit, hdir, if_true, Bool.false_eq_true, if_false]
    cases readTs fs initState (fs.expanduser p) ch <;> simp [Except.map]
  · simp [dataReaderInit, hdir, dataReader_read_timeseries]

/-- Witness for C10 at the concrete `sampleFs` and path `d`. -/
theorem c10_witness :
    sampleFs.isDir (sampleFs.expanduser "d") = true ∧
    dataReaderInit dataReader_read_timeseries sampleFs (some "d") none false =
      Except.error PyErr.notImplementedError :=
  ⟨rfl,
    (c10_constructor_reads ramulator_read_timeseries sampleFs "d" none rfl).2.1⟩

/-- **C8.** `get_time_range` is a pure query: whenever the method call
returns, the reader state it leaves behind is the state it was given — the
held `timeseries`, `events` and `metadata` are unchanged. -/
theorem c8_get_time_range_pure (s : ReaderState) (ch : Option (List String))
    (tmin : ℚ) (tspan : Option ℚ) (df : DataFrame) (s' : ReaderState)
    (h : get_time_range_method s ch tmin tspan = Except.ok (df, s')) :
    s' = s ∧ s'.timeseries = s.timeseries ∧ s'.events = s.events ∧
      s'.metadata = s.metadata := by
  have hs : s' = s := by
    unfold get_time_range_method at h
    split at h
    · exact absurd h (by simp)
    · split at h
      · exact absurd h (by simp)
      · rw [Except.ok.injEq, Prod.mk.injEq] at h
        exact h.2.symm
  exact ⟨hs, by rw [hs], by rw [hs], by rw [hs]⟩

/-- Witness for C8: a concrete successful call on `sampleState` leaves the
state equal to itself. -/
theorem c8_witness :
    get_time_range_method sampleState none 2 none =
      Except.ok ([("time", [2, 3]), ("a", [12, 13]), ("b", [22, 23])],
        sampleState) ∧
    sampleState = sampleState := by
  have h : get_time_range_method sampleState none 2 none =
      Except.ok ([("time", [2, 3]), ("a", [12, 13]), ("b", [22, 23])],
        sampleState) := by
    norm_num [get_time_range_method, sampleState, initState, rowFilter,
      maskFilter, inRangeB, List.lookup]
  exact ⟨h, (c8_get_time_range_pure sampleState none 2 none _ _ h).1⟩

/-- **C7.** The `time_column` accessor returns `"time"` on the state the
constructor installs; setting it to a new label leaves the held table (hence
every column name) and the other attributes unchanged; afterwards the
accessor returns the new label, `plot_timeseries` plots exactly what
`get_time_range` returns with the new label as the x-axis, and
`get_time_range` selects columns headed by the new label. -/
theorem c7_set_time_column_frame (s : ReaderState) (l : String) :
    time_column initState = "time" ∧
    (set_time_column s l).timeseries = s.timeseries ∧
    (set_time_column s l).events = s.events ∧
    (set_time_column s l).metadata = s.metadata ∧
    time_column (set_time_column s l) = l ∧
    (∀ (ch : Option (List String)) (tmin : ℚ) (tspan : Option ℚ) (df : DataFrame),
      plot_timeseries_selection (set_time_column s l) ch tmin tspan =
          Except.ok (l, df) ↔
        get_time_range (set_time_column s l) ch tmin tspan = Except.ok df) ∧
    (∀ (chs : List String) (tmin : ℚ) (tspan : Option ℚ) (df : DataFrame),
      get_time_range (set_time_column s l) (some chs) tmin tspan =
          Except.ok df →
        dfColumns df = l :: chs) := by
  refine ⟨rfl, rfl, rfl, rfl, rfl, ?_, ?_⟩
  · intro ch tmin tspan df
    unfold plot_timeseries_selection
    cases get_time_range (set_time_column s l) ch tmin tspan <;>
      simp [set_time_column]
  intro chs tmin tspan df h
  unfold get_time_range at h
  split at h
  · exact absurd h (by simp)
  next df₁ hsel =>
    split at h
    · exact absurd h (by simp)
    · rw [Except.ok.injEq] at h
      rw [← h, dfColumns_rowFilter]
      exact selectCols_columns _ _ _ hsel

/-- Witness for C7: after setting the label of `sampleState` to `"b"`, a
concrete `get_time_range` call selects columns `["b", "a"]` — the new label
is the one treated as the time column. -/
theorem c7_witness :
    get_time_range (set_time_column sampleState "b") (some ["a"]) 0 none =
      Except.ok [("b", [20, 21, 22, 23]), ("a", [10, 11, 12, 13])] ∧
    dfColumns [("b", [(20 : ℚ), 21, 22, 23]), ("a", [10, 11, 12, 13])] =
      ["b", "a"] := by
  have hba : ("b" == "a") = false := rfl
  have hbt : ("b" == "time") = false := rfl
  have hat : ("a" == "time") = false := rfl
  have h : get_time_range (set_time_column sampleState "b") (some ["a"]) 0
      none = Except.ok [("b", [20, 21, 22, 23]), ("a", [10, 11, 12, 13])] := by
    norm_num [get_time_range, set_time_column, sampleState, initState,
      selectCols, rowFilter, maskFilter, inRangeB, List.lookup, hba, hbt, hat]
  exact ⟨h,
    (c7_set_time_column_frame sampleState "b").2.2.2.2.2.2 ["a"] 0 none _ h⟩

/-- Counterexample to C4 as stated: at a concrete reader state and path, the
call with `indexingMode="one"` raises `TypeError` (the signature has no such
parameter), not `NotImplementedError`. -/
theorem c4_counterexample :
    ramulator_read_timeseries_kwcall sampleFs initState "d" none (some "one") =
      Except.error
        (PyErr.typeError "unexpected keyword argument indexingMode") ∧
    ramulator_read_timeseries_kwcall sampleFs initState "d" none (some "one") ≠
      Except.error PyErr.notImplementedError := by
  refine ⟨rfl, ?_⟩
  simp [ramulator_read_timeseries_kwcall]

/-- **C4 (amended).** `RamulatorReader.read_timeseries` has no
`indexingMode` parameter at all; a Python call supplying the keyword —
whatever its value, `"zero"` included — fails with `TypeError` (unexpected
keyword argument) raised by the call mechanics before the body runs, so it is
not silently ignored and the call stores no table (it never returns a
state). -/
theorem c4_kwcall_type_error (fs : FileSystem) (s : ReaderState)
    (path : String) (ch : Option (List Nat)) (m : String) :
    ramulator_read_timeseries_kwcall fs s path ch (some m) =
      Except.error
        (PyErr.typeError "unexpected keyword argument indexingMode") ∧
    (∀ (df : DataFrame) (s' : ReaderState),
      ramulator_read_timeseries_kwcall fs s path ch (some m) ≠
        Except.ok (df, s')) := by
  exact ⟨rfl, fun df s' => by simp [ramulator_read_timeseries_kwcall]⟩

/-- Witness for C4: even the keyword value `"zero"` is rejected by the call
mechanics at a concrete input. -/
theorem c4_witness :
    ramulator_read_timeseries_kwcall sampleFs initState "d" none
        (some "zero") =
      Except.error
        (PyErr.typeError "unexpected keyword argument indexingMode") :=
  (c4_kwcall_type_error sampleFs initState "d" none "zero").1

/-- **C6.** When a channel list is given, `RamulatorReader.read_timeseries`
selects exactly the rows of the `ports` array and of the `timeseries` array
at those indices, in order, and names each channel column by the exact
template `"port%d"` applied to the port identifier found in the `ports`
array at that row — not the caller's requested index. -/
theorem c6_port_columns_from_ports (fs : FileSystem) (s : ReaderState)
    (path : String) (chs : List Nat) (h5 : H5Data)
    (hfile : fs.h5files (ospJoin path timeseriesFile) = some h5)
    (hports : ∀ i ∈ chs, i < h5.ports.length)
    (hts : ∀ i ∈ chs, i < h5.tsRows.length) :
    ramulator_read_timeseries fs s path (some chs) =
      Except.ok
        (("time", ramulatorTimes h5.tsCols) ::
           chs.map (fun i =>
             ("port" ++ toString (h5.ports.getD i 0), h5.tsRows.getD i [])),
         { s with timeseries :=
            ("time", ramulatorTimes h5.tsCols) ::
              chs.map (fun i =>
                ("port" ++ toString (h5.ports.getD i 0),
                 h5.tsRows.getD i [])) }) := by
  have hp := fancyIndex_ok h5.ports chs 0 hports
  have ht2 := fancyIndex_ok h5.tsRows chs [] hts
  simp only [ramulator_read_timeseries, hfile, hp, ht2, portColumns_map]

/-- Witness for C6: reading channel list `[1]` of `sampleH5` selects row 1 of
both arrays and names the column `port7` (the hardware port), not `port1`
(the requested index). -/
theorem c6_witness :
    sampleFs.h5files (ospJoin "d" timeseriesFile) = some sampleH5 ∧
    ramulator_read_timeseries sampleFs initState "d" (some [1]) =
      Except.ok ([("time", ramulatorTimes 2), ("port7", [20, 21])],
        { initState with
            timeseries := [("time", ramulatorTimes 2), ("port7", [20, 21])] }) := by
  have hfile : sampleFs.h5files (ospJoin "d" timeseriesFile) = some sampleH5 :=
    rfl
  have h7 : "port" ++ toString (7 : Int) = "port7" := rfl
  have h := c6_port_columns_from_ports sampleFs initState "d" [1] sampleH5
    hfile (by decide) (by decide)
  refine ⟨hfile, ?_⟩
  simpa [sampleH5, h7, List.getD] using h

/-- Counterexample to C5 as stated: set the configured time label to `"t"`,
then perform a successful read; the held table's columns are
`["time", "port3", "port7"]`, so no column carries the configured label
`"t"`. -/
theorem c5_counterexample :
    ramulator_read_timeseries sampleFs (set_time_column initState "t") "d"
        none =
      Except.ok (sampleDf,
        { timeseries := sampleDf, events := [], metadata := [],
          timeColumnLabel := "t" }) ∧
    time_column { timeseries := sampleDf, events := [], metadata := [],
                  timeColumnLabel := "t" } = "t" ∧
    "t" ∉ dfColumns sampleDf := by
  have hj : ospJoin "d" timeseriesFile = "d/eeg_timeseries.h5" := rfl
  have h3 : "port" ++ toString (3 : Int) = "port3" := rfl
  have h7 : "port" ++ toString (7 : Int) = "port7" := rfl
  refine ⟨?_, rfl, by decide⟩
  norm_num [ramulator_read_timeseries, sampleFs, sampleH5, hj, h3, h7,
    ramulatorTimes, linspace, ramulatorDt, List.range_succ, portColumns,
    set_time_column, initState, sampleDf]

/-- **C5 (amended).** After every successful read the held table contains a
column literally named `"time"`: both `RamulatorReader.read_timeseries` and
`from_data` hardcode that label and put the column first (this coincides with
the claim's "configured time label" exactly when the label is left at its
default `"time"`); and `get_time_range` with a non-`None` channel list always
returns the configured time column ahead of the requested channels — channel
selection never removes it. -/
theorem c5_time_column_retained :
    (∀ (fs : FileSystem) (s : ReaderState) (path : String)
       (ch : Option (List Nat)) (df : DataFrame) (s' : ReaderState),
      ramulator_read_timeseries fs s path ch = Except.ok (df, s') →
        s'.timeseries = df ∧ "time" ∈ dfColumns s'.timeseries) ∧
    (∀ (times : List ℚ) (data : List (String × List ℚ)),
      "time" ∈ dfColumns (from_data times data).timeseries) ∧
    (∀ (s : ReaderState) (chs : List String) (tmin : ℚ) (tspan : Option ℚ)
       (df : DataFrame),
      get_time_range s (some chs) tmin tspan = Except.ok df →
        dfColumns df = time_column s :: chs ∧ time_column s ∈ dfColumns df) := by
  refine ⟨?_, ?_, ?_⟩
  · intro fs s path ch df s' h
    unfold ramulator_read_timeseries at h
    split at h
    · exact absurd h (by simp)
    · split at h
      · exact absurd h (by simp)
      · simp only [Except.ok.injEq, Prod.mk.injEq] at h
        obtain ⟨hdf, hs'⟩ := h
        subst hdf
        rw [← hs']
        exact ⟨rfl, by simp [dfColumns]⟩
  · intro times data
    simp [from_data, dfColumns]
  · intro s chs tmin tspan df h
    unfold get_time_range at h
    split at h
    · exact absurd h (by simp)
    next df₁ hsel =>
      split at h
      · exact absurd h (by simp)
      · rw [Except.ok.injEq] at h
        have hc : dfColumns df = time_column s :: chs := by
          rw [← h, dfColumns_rowFilter]
          exact selectCols_columns _ _ _ hsel
        exact ⟨hc, by rw [hc]; exact List.mem_cons_self _ _⟩

/-- Witness for C5: a concrete successful full read on `sampleFs` whose held
table's first column is `"time"`. -/
theorem c5_witness :
    ramulator_read_timeseries sampleFs initState "d" none =
      Except.ok (sampleDf, { initState with timeseries := sampleDf }) ∧
    "time" ∈ dfColumns ({ initState with timeseries := sampleDf }).timeseries := by
  have hj : ospJoin "d" timeseriesFile = "d/eeg_timeseries.h5" := rfl
  have h3 : "port" ++ toString (3 : Int) = "port3" := rfl
  have h7 : "port" ++ toString (7 : Int) = "port7" := rfl
  have h : ramulator_read_timeseries sampleFs initState "d" none =
      Except.ok (sampleDf, { initState with timeseries := sampleDf }) := by
    norm_num [ramulator_read_timeseries, sampleFs, sampleH5, hj, h3, h7,
      ramulatorTimes, linspace, ramulatorDt, List.range_succ, portColumns,
      initState, sampleDf]
  exact ⟨h,
    (c5_time_column_retained.1 sampleFs initState "d" none sampleDf _ h).2⟩

/-- Counterexample to C3 as stated: a directory `d` that lacks the required
event-log file (and the plain-text log) nevertheless constructs successfully
— no `InvalidPathError` (nor any error) is raised, because construction
checks only that the path is a directory. -/
theorem c3_counterexample :
    sampleFs.isDir "d" = true ∧
    sampleFs.fileExists (ospJoin "d" eventLogFile) = false ∧
    sampleFs.fileExists (ospJoin "d" logFile) = false ∧
    ramulatorInit sampleFs (some "d") none false =
      Except.ok { initState with timeseries := sampleDf } := by
  have hj : ospJoin "d" timeseriesFile = "d/eeg_timeseries.h5" := rfl
  have h3 : "port" ++ toString (3 : Int) = "port3" := rfl
  have h7 : "port" ++ toString (7 : Int) = "port7" := rfl
  refine ⟨rfl, rfl, rfl, ?_⟩
  norm_num [ramulatorInit, dataReaderInit, ramulator_read_timeseries,
    sampleFs, sampleH5, hj, h3, h7, ramulatorTimes, linspace, ramulatorDt,
    List.range_succ, portColumns, initState, sampleDf]

/-- **C3 (amended).** Construction fails with
`InvalidPathError("path must be a directory")` — a message naming neither a
file nor the path — exactly when the (expanded) path is not a directory; no
required-file check happens at construction: with the path a directory, a
missing timeseries file surfaces as the file-open `OSError` from the read
(not `InvalidPathError`), and which plain files exist in the directory is
never consulted at all. -/
theorem c3_invalid_path_behaviour :
    (∀ (fs : FileSystem) (p : String) (ch : Option (List Nat)) (nr : Bool),
      fs.isDir (fs.expanduser p) = false →
        ramulatorInit fs (some p) ch nr =
          Except.error (PyErr.invalidPathError "path must be a directory")) ∧
    (∀ (fs : FileSystem) (p : String) (ch : Option (List Nat)),
      fs.isDir (fs.expanduser p) = true →
      fs.h5files (ospJoin (fs.expanduser p) timeseriesFile) = none →
        ramulatorInit fs (some p) ch false =
          Except.error
            (PyErr.osError (ospJoin (fs.expanduser p) timeseriesFile))) ∧
    (∀ (e : String → String) (d : String → Bool) (g g' : String → Bool)
       (h : String → Option H5Data) (path : Option String)
       (ch : Option (List Nat)) (nr : Bool),
      ramulatorInit ⟨e, d, g, h⟩ path ch nr =
        ramulatorInit ⟨e, d, g', h⟩ path ch nr) := by
  refine ⟨?_, ?_, fun _ _ _ _ _ _ _ _ => rfl⟩
  · intro fs p ch nr hdir
    simp [ramulatorInit, dataReaderInit, hdir]
  · intro fs p ch hdir hfile
    simp [ramulatorInit, dataReaderInit, hdir, ramulator_read_timeseries,
      hfile]

/-- Witness for C3: a non-directory path fails with
`InvalidPathError("path must be a directory")`; a directory without the
timeseries file fails during the constructor's read with `OSError`, not
`InvalidPathError`. -/
theorem c3_witness :
    sampleFs.isDir (sampleFs.expanduser "e") = false ∧
    ramulatorInit sampleFs (some "e") none false =
      Except.error (PyErr.invalidPathError "path must be a directory") ∧
    sampleFsNoH5.isDir (sampleFsNoH5.expanduser "d") = true ∧
    sampleFsNoH5.h5files
        (ospJoin (sampleFsNoH5.expanduser "d") timeseriesFile) = none ∧
    ramulatorInit sampleFsNoH5 (some "d") none false =
      Except.error
        (PyErr.osError (ospJoin (sampleFsNoH5.expanduser "d") timeseriesFile)) :=
  ⟨rfl, c3_invalid_path_behaviour.1 sampleFs "e" none false rfl, rfl, rfl,
    c3_invalid_path_behaviour.2.1 sampleFsNoH5 "d" none rfl rfl⟩

end Eeglib
